import Mathlib

/-
Verification of the Vapor provider utility layer and Vapor refund CLI of the
swap repository (src/swap/providers/vapor/utils.py and
src/swap/cli/providers/vapor/refund.py) against its specification.

Modelling conventions:
* Python numbers (int and float) are modelled by the type PyNum below; the
  exact value carried by either kind is a rational number, so Python float
  arithmetic is modelled as exact rational arithmetic and the builtin int()
  truncation toward zero is the function truncQ.
* Python exceptions are modelled by the type PyExc, and code that can raise
  returns Except PyExc.
* JSON values (the result of json.loads) are modelled by JsonVal; Python dicts
  are association lists in which a later duplicate key overwrites the earlier
  binding (dictInsert), exactly as json.loads builds dicts.
* HTTP traffic is modelled by passing the remote service as a function from
  requests to responses, and every function that can issue requests also
  returns the list of requests it actually issued, in order.
-/

namespace Swap

/-- Truncation toward zero of an exact rational, the behaviour of the Python
builtin int() on a numeric value. -/
def truncQ (q : ℚ) : ℤ := Int.tdiv q.num (q.den : ℤ)

/-- A Python number: either an int or a float.  Floats are modelled as exact
rationals. -/
inductive PyNum where
  | pint (i : ℤ)
  | pfloat (q : ℚ)

/-- The exact rational value carried by a Python number. -/
def PyNum.toQ : PyNum → ℚ
  | .pint i => (i : ℚ)
  | .pfloat q => q

/-- A JSON value as produced by json.loads: null, booleans, numbers (exact
rationals), strings, arrays, and objects as key/value association lists. -/
inductive JsonVal where
  | null
  | bool (b : Bool)
  | num (q : ℚ)
  | str (s : String)
  | arr (elems : List JsonVal)
  | obj (fields : List (String × JsonVal))

/-- Python exceptions raised by the code under verification.  APIError carries
the message and code fields taken from a JSON response body. -/
inductive PyExc where
  | symbolError (message info : String)
  | transactionRawError (message : String)
  | addressError (message : String)
  | networkError (message info : String)
  | apiError (message code : JsonVal)
  | keyError (key : String)
  | typeError (message : String)
  | valueError (message : String)
  | unitError (message info : String)

/-- Modelled from the spec: the repository exception classes live in
swap/exceptions.py, which is not under src; str(exception) is modelled as the
first message argument of the exception. -/
def PyExc.text : PyExc → String
  | .symbolError m _ => m
  | .transactionRawError m => m
  | .addressError m => m
  | .networkError m _ => m
  | .apiError _ _ => "api error"
  | .keyError k => k
  | .typeError m => m
  | .valueError m => m
  | .unitError m _ => m

/-- Lookup of a key in a Python dict modelled as an association list. -/
def lookupField : List (String × JsonVal) → String → Option JsonVal
  | [], _ => none
  | (k, v) :: rest, key => if k = key then some v else lookupField rest key

/-- Insertion into a Python dict: a duplicate key overwrites the earlier
binding in place, a new key is appended. -/
def dictInsert : List (String × JsonVal) → String → JsonVal → List (String × JsonVal)
  | [], key, v => [(key, v)]
  | (k, w) :: rest, key, v =>
    if k = key then (key, v) :: rest else (k, w) :: dictInsert rest key v

/-- Python subscription value[key] with a string key: an object yields the
bound value or raises KeyError, every non-object raises TypeError. -/
def getItem (v : JsonVal) (key : String) : Except PyExc JsonVal :=
  match v with
  | .obj fields =>
    match lookupField fields key with
    | some x => .ok x
    | none => .error (.keyError key)
  | _ => .error (.typeError "value is not subscriptable by a string key")

/-- The six valid symbols accepted by amount_converter
(src/swap/providers/vapor/utils.py line 36). -/
def validSymbols : List String :=
  ["BTM2mBTM", "BTM2NEU", "mBTM2BTM", "mBTM2NEU", "NEU2BTM", "NEU2mBTM"]

/-- Bit length recursion by halving, fuelled. -/
def blenAux : ℕ → ℕ → ℕ
  | 0, _ => 0
  | fuel + 1, n => if n = 0 then 0 else blenAux fuel (n / 2) + 1

/-- Bit length of a natural number: 0 for 0, otherwise the exponent of the
least power of two exceeding it.  The fuel covers every magnitude below
2 ^ 1200; the binary64 values the callers model stay below 2 ^ 1024 and
their denominators below 2 ^ 1075, far inside the covered range. -/
def blen (n : ℕ) : ℕ := blenAux 1200 n

/-- Rounding of the nonnegative quotient x / u to the nearest integer, ties
to even: the rounding of IEEE 754 round-to-nearest. -/
def rhe (x u : ℕ) : ℕ :=
  if 2 * (x % u) < u then x / u
  else if u < 2 * (x % u) then x / u + 1
  else if x / u % 2 = 0 then x / u else x / u + 1

/-- Rounding of a / (d * 2 ^ e) to the nearest integer, ties to even, for an
integer exponent of either sign. -/
def roundScaled (a d : ℕ) (e : ℤ) : ℕ :=
  if 0 ≤ e then rhe a (d * 2 ^ e.toNat) else rhe (a * 2 ^ (-e).toNat) d

/-- The binary64 exponent at which the mantissa of a / d is first read: 53
bits below the leading bit of the quotient, floored at the subnormal
exponent -1074. -/
def dblExp (a d : ℕ) : ℤ :=
  if ((blen a : ℤ) - (blen d : ℤ) - 53) < -1074 then -1074
  else (blen a : ℤ) - (blen d : ℤ) - 53

/-- The final binary64 exponent of a / d: when rounding at dblExp carries the
mantissa up to 2 ^ 53, the value is re-rounded one exponent higher. -/
def dblExp2 (a d : ℕ) : ℤ :=
  if 2 ^ 53 ≤ roundScaled a d (dblExp a d) then dblExp a d + 1 else dblExp a d

/-- The rational value of a signed mantissa at a binary exponent. -/
def dblVal (neg : Bool) (t : ℕ) (e : ℤ) : ℚ :=
  if 0 ≤ e then Rat.divInt ((if neg then -(t : ℤ) else (t : ℤ)) * 2 ^ e.toNat) 1
  else Rat.divInt (if neg then -(t : ℤ) else (t : ℤ)) ((2 : ℤ) ^ (-e).toNat)

/-- Rounding of an exact rational to the nearest IEEE 754 binary64 value
(round to nearest, ties to even, subnormals included), the arithmetic of
Python floats.  Overflow to infinity, at magnitudes of 2 ^ 1024 and beyond,
is outside the modelled domain. -/
def roundDouble (q : ℚ) : ℚ :=
  if q.num = 0 then 0
  else
    dblVal (decide (q.num < 0))
      (roundScaled q.num.natAbs q.den (dblExp2 q.num.natAbs q.den))
      (dblExp2 q.num.natAbs q.den)

/-- Exact product of a rational and a natural constant. -/
def ratMulNat (q : ℚ) (k : ℕ) : ℚ := Rat.divInt (q.num * k) (q.den : ℤ)

/-- Exact quotient of a rational by a natural constant. -/
def ratDivNat (q : ℚ) (k : ℕ) : ℚ := Rat.divInt q.num ((q.den : ℤ) * k)

/-- Python multiplication of a numeric amount by one of the positive integer
unit constants: int times int is exact arbitrary-precision arithmetic, while
float times int is one correctly rounded binary64 multiplication (the
constants 1, 1000 and 100000000 are themselves exact doubles). -/
def pyMulNat (a : PyNum) (k : ℕ) : PyNum :=
  match a with
  | .pint i => .pint (i * k)
  | .pfloat q => .pfloat (roundDouble (ratMulNat q k))

/-- Python true division of a numeric amount by a positive integer unit
constant: both int / int and float / int return the correctly rounded
binary64 of the exact quotient. -/
def pyDivNat (a : PyNum) (k : ℕ) : ℚ :=
  roundDouble (ratDivNat a.toQ k)

/-- Embedding of amount_converter (src/swap/providers/vapor/utils.py lines
21 to 54).  The constants are BTM = 1, mBTM = 1000, NEU = 100000000; each
branch reproduces the source expression with Python numeric semantics: the
multiplication is exact on an int amount and correctly rounded on a float
amount, the true division returns the correctly rounded binary64 of the
exact quotient, float(...) keeps that double and int(...) truncates it
toward zero.  The final branch is the last elif of the source, reachable
only for the symbol NEU2mBTM because of the membership test. -/
def amount_converter (amount : PyNum) (symbol : String) : Except PyExc PyNum :=
  if symbol ∈ validSymbols then
    if symbol = "BTM2mBTM" then .ok (.pfloat (pyDivNat (pyMulNat amount 1000) 1))
    else if symbol = "BTM2NEU" then .ok (.pint (truncQ (pyDivNat (pyMulNat amount 100000000) 1)))
    else if symbol = "mBTM2BTM" then .ok (.pfloat (pyDivNat (pyMulNat amount 1) 1000))
    else if symbol = "mBTM2NEU" then .ok (.pint (truncQ (pyDivNat (pyMulNat amount 100000000) 1000)))
    else if symbol = "NEU2BTM" then .ok (.pfloat (pyDivNat (pyMulNat amount 1) 100000000))
    else .ok (.pint (truncQ (pyDivNat (pyMulNat amount 1000) 100000000)))
  else
    .error (.symbolError ("Invalid \x27" ++ symbol ++ "\x27 symbol/type")
      "choose only \x27BTM2mBTM\x27, \x27BTM2NEU\x27, \x27mBTM2BTM\x27, \x27mBTM2NEU\x27, \x27NEU2BTM\x27 or \x27NEU2mBTM\x27 symbols.")

/-- Embedding of is_network (src/swap/providers/vapor/utils.py lines 57 to
72) restricted to string arguments. -/
def is_network (network : String) : Bool :=
  network ∈ ["mainnet", "solonet", "testnet"]

/-- Embedding of is_address (src/swap/providers/vapor/utils.py lines 75 to
95).  The external validator pybytom.utils.is_address is not part of the
repository and is passed as the function argument btm_validator, taking the
address and the optional network. -/
def is_address (btm_validator : String → Option String → Bool)
    (address : String) (network : Option String) : Except PyExc Bool :=
  match network with
  | none => .ok (btm_validator address none)
  | some n =>
    if is_network n = false then
      .error (.networkError ("Invalid Vapor \x27" ++ n ++ "\x27 network")
        "choose only \x27mainnet\x27, \x27solonet\x27 or \x27testnet\x27 networks.")
    else .ok (btm_validator address (some n))

/-- Embedding of get_address_type (src/swap/providers/vapor/utils.py lines
216 to 237), parameterised by the same external address validator. -/
def get_address_type (btm_validator : String → Option String → Bool)
    (address : String) : Except PyExc (Option String) :=
  match is_address btm_validator address none with
  | .error e => .error e
  | .ok valid =>
    if valid = false then
      .error (.addressError ("Invalid Vapor \x27" ++ address ++ "\x27 address."))
    else if address.length = 42 then .ok (some "p2wpkh")
    else if address.length = 62 then .ok (some "p2wsh")
    else .ok none

/-- The left brace character, written by code point. -/
def lbraceChar : Char := Char.ofNat 123

/-- The right brace character, written by code point. -/
def rbraceChar : Char := Char.ofNat 125

/-- Value of a character of the standard base64 alphabet, none outside it.
Models the alphabet used by base64.b64decode. -/
def b64CharVal (c : Char) : Option ℕ :=
  if 'A' ≤ c ∧ c ≤ 'Z' then some (c.toNat - 65)
  else if 'a' ≤ c ∧ c ≤ 'z' then some (c.toNat - 97 + 26)
  else if '0' ≤ c ∧ c ≤ '9' then some (c.toNat - 48 + 52)
  else if c = '+' then some 62
  else if c = '/' then some 63
  else none

/-- First decoded byte of a base64 quantum. -/
def b64Byte1 (va vb : ℕ) : ℕ := va * 4 + vb / 16

/-- Second decoded byte of a base64 quantum. -/
def b64Byte2 (vb vc : ℕ) : ℕ := (vb % 16) * 16 + vc / 4

/-- Third decoded byte of a base64 quantum. -/
def b64Byte3 (vc vd : ℕ) : ℕ := (vc % 4) * 64 + vd

/-- Decoding of base64 characters in groups of four, as binascii.a2b_base64
does after the non-alphabet characters have been discarded: a group ending in
one or two padding characters finishes the decode (data after the padding is
ignored in non-strict mode), a group of any other shape or a trailing group
shorter than four characters is an error. -/
def b64Groups : List Char → Option (List ℕ)
  | [] => some []
  | a :: b :: c :: d :: rest =>
    match b64CharVal a, b64CharVal b, b64CharVal c, b64CharVal d with
    | some va, some vb, some vc, some vd =>
      match b64Groups rest with
      | some bs => some (b64Byte1 va vb :: b64Byte2 vb vc :: b64Byte3 vc vd :: bs)
      | none => none
    | some va, some vb, some vc, none =>
      if d = '=' then some [b64Byte1 va vb, b64Byte2 vb vc] else none
    | some va, some vb, none, _ =>
      if c = '=' ∧ d = '=' then some [b64Byte1 va vb] else none
    | _, _, _, _ => none
  | _ => none

/-- Model of base64.b64decode applied to the utf-8 encoding of a string, with
the default validate=False: characters outside the alphabet and the padding
character are discarded first, then the remainder is decoded in groups of
four. -/
def b64decodeString (s : String) : Option (List ℕ) :=
  b64Groups (s.data.filter (fun c => (b64CharVal c).isSome || c == '='))

/-- A utf-8 continuation byte. -/
def utf8Cont (b : ℕ) : Bool := decide (128 ≤ b) && decide (b ≤ 191)

/-- Strict utf-8 decoding of a byte list, fuelled by the number of bytes
still allowed to be consumed; models bytes.decode() with the default strict
utf-8 codec (overlong encodings and surrogate code points are rejected). -/
def utf8DecodeAux : ℕ → List ℕ → Option (List Char)
  | _, [] => some []
  | 0, _ :: _ => none
  | fuel + 1, b :: rest =>
    if b ≤ 127 then
      match utf8DecodeAux fuel rest with
      | some cs => some (Char.ofNat b :: cs)
      | none => none
    else if 194 ≤ b ∧ b ≤ 223 then
      match rest with
      | b2 :: rest2 =>
        if utf8Cont b2 then
          match utf8DecodeAux fuel rest2 with
          | some cs => some (Char.ofNat ((b - 192) * 64 + (b2 - 128)) :: cs)
          | none => none
        else none
      | [] => none
    else if 224 ≤ b ∧ b ≤ 239 then
      match rest with
      | b2 :: b3 :: rest2 =>
        let lo2 : ℕ := if b = 224 then 160 else 128
        let hi2 : ℕ := if b = 237 then 159 else 191
        if (decide (lo2 ≤ b2) && decide (b2 ≤ hi2)) && utf8Cont b3 then
          match utf8DecodeAux fuel rest2 with
          | some cs =>
            some (Char.ofNat ((b - 224) * 4096 + (b2 - 128) * 64 + (b3 - 128)) :: cs)
          | none => none
        else none
      | _ => none
    else if 240 ≤ b ∧ b ≤ 244 then
      match rest with
      | b2 :: b3 :: b4 :: rest2 =>
        let lo2 : ℕ := if b = 240 then 144 else 128
        let hi2 : ℕ := if b = 244 then 143 else 191
        if ((decide (lo2 ≤ b2) && decide (b2 ≤ hi2)) && utf8Cont b3) && utf8Cont b4 then
          match utf8DecodeAux fuel rest2 with
          | some cs =>
            some (Char.ofNat
              ((b - 240) * 262144 + (b2 - 128) * 4096 + (b3 - 128) * 64 + (b4 - 128)) :: cs)
          | none => none
        else none
      | _ => none
    else none

/-- Strict utf-8 decoding of a byte list to the decoded character list. -/
def utf8DecodeBytes (bs : List ℕ) : Option (List Char) :=
  utf8DecodeAux bs.length bs

/-- JSON insignificant whitespace removal from the front of the input. -/
def skipWs : List Char → List Char
  | [] => []
  | c :: rest =>
    if c = ' ' ∨ c = '\t' ∨ c = '\n' ∨ c = '\r' then skipWs rest else c :: rest

/-- Value of a hexadecimal digit, none for any other character. -/
def hexVal (c : Char) : Option ℕ :=
  if '0' ≤ c ∧ c ≤ '9' then some (c.toNat - 48)
  else if 'a' ≤ c ∧ c ≤ 'f' then some (c.toNat - 87)
  else if 'A' ≤ c ∧ c ≤ 'F' then some (c.toNat - 55)
  else none

/-- Prepend a character to the string part of a partial string-body parse. -/
def consChar (c : Char) : Option (List Char × List Char) → Option (List Char × List Char)
  | some (cs, rest) => some (c :: cs, rest)
  | none => none

/-- Body of a JSON string after its opening quote, fuelled: returns the
characters up to the closing quote and the remaining input.  Escape sequences
follow the JSON grammar; an unescaped control character or a \u escape naming
a surrogate code point is rejected, as the strict json.loads decoder does. -/
def parseStringBody : ℕ → List Char → Option (List Char × List Char)
  | 0, _ => none
  | _ + 1, [] => none
  | fuel + 1, c :: rest =>
    if c = '\"' then some ([], rest)
    else if c = '\\' then
      match rest with
      | [] => none
      | e :: rest2 =>
        if e = '\"' then consChar '\"' (parseStringBody fuel rest2)
        else if e = '\\' then consChar '\\' (parseStringBody fuel rest2)
        else if e = '/' then consChar '/' (parseStringBody fuel rest2)
        else if e = 'b' then consChar (Char.ofNat 8) (parseStringBody fuel rest2)
        else if e = 'f' then consChar (Char.ofNat 12) (parseStringBody fuel rest2)
        else if e = 'n' then consChar (Char.ofNat 10) (parseStringBody fuel rest2)
        else if e = 'r' then consChar (Char.ofNat 13) (parseStringBody fuel rest2)
        else if e = 't' then consChar (Char.ofNat 9) (parseStringBody fuel rest2)
        else if e = 'u' then
          match rest2 with
          | h1 :: h2 :: h3 :: h4 :: rest3 =>
            match hexVal h1, hexVal h2, hexVal h3, hexVal h4 with
            | some v1, some v2, some v3, some v4 =>
              let code := ((v1 * 16 + v2) * 16 + v3) * 16 + v4
              if 55296 ≤ code ∧ code ≤ 57343 then none
              else consChar (Char.ofNat code) (parseStringBody fuel rest3)
            | _, _, _, _ => none
          | _ => none
        else none
    else if c.toNat < 32 then none
    else consChar c (parseStringBody fuel rest)

/-- Longest prefix of decimal digits, as digit values, with the rest of the
input. -/
def takeDigits : List Char → List ℕ × List Char
  | [] => ([], [])
  | c :: rest =>
    if '0' ≤ c ∧ c ≤ '9' then
      let (ds, r) := takeDigits rest
      ((c.toNat - 48) :: ds, r)
    else ([], c :: rest)

/-- Numeric value of a digit list, most significant first. -/
def digitsVal (ds : List ℕ) : ℕ := ds.foldl (fun acc d => acc * 10 + d) 0

/-- Ten to a natural power, as a rational. -/
def tenPow (n : ℕ) : ℚ := ((10 ^ n : ℕ) : ℚ)

/-- Exact rational value of a parsed JSON number with sign, integer part,
fraction digits and exponent.  A plain non-negative integer literal is kept
in cast form so that concrete envelopes evaluate by unfolding alone. -/
def buildNumber (neg : Bool) (ip : ℕ) (fds : List ℕ) (en : Bool) (ev : ℕ) : ℚ :=
  if fds.isEmpty ∧ en = false ∧ ev = 0 then
    if neg then -(ip : ℚ) else (ip : ℚ)
  else
    let mag : ℚ :=
      ((ip : ℚ) + (digitsVal fds : ℚ) / tenPow fds.length) *
        (if en then 1 / tenPow ev else tenPow ev)
    if neg then -mag else mag

/-- Optional fraction part of a JSON number: a dot must be followed by at
least one digit. -/
def parseFrac (s : List Char) : Option (List ℕ × List Char) :=
  match s with
  | c :: rest =>
    if c = '.' then
      match takeDigits rest with
      | ([], _) => none
      | (ds, r) => some (ds, r)
    else some ([], s)
  | [] => some ([], s)

/-- Optional exponent part of a JSON number: e or E, an optional sign, then
at least one digit. -/
def parseExp (s : List Char) : Option (Bool × ℕ × List Char) :=
  match s with
  | c :: rest =>
    if c = 'e' ∨ c = 'E' then
      let (en, rest2) :=
        match rest with
        | c2 :: r2 =>
          if c2 = '-' then (true, r2) else if c2 = '+' then (false, r2) else (false, rest)
        | [] => (false, rest)
      match takeDigits rest2 with
      | ([], _) => none
      | (ds, r) => some (en, digitsVal ds, r)
    else some (false, 0, s)
  | [] => some (false, 0, s)

/-- A JSON number literal: optional minus, an integer part without leading
zeros, optional fraction and exponent. -/
def parseNumber (s : List Char) : Option (ℚ × List Char) :=
  let (neg, s1) :=
    match s with
    | c :: rest => if c = '-' then (true, rest) else (false, s)
    | [] => (false, s)
  match s1 with
  | [] => none
  | c :: rest =>
    if c = '0' then
      match parseFrac rest with
      | none => none
      | some (fds, s3) =>
        match parseExp s3 with
        | none => none
        | some (en, ev, s4) => some (buildNumber neg 0 fds en ev, s4)
    else if '1' ≤ c ∧ c ≤ '9' then
      let (ds, s2) := takeDigits rest
      match parseFrac s2 with
      | none => none
      | some (fds, s3) =>
        match parseExp s3 with
        | none => none
        | some (en, ev, s4) =>
          some (buildNumber neg (digitsVal ((c.toNat - 48) :: ds)) fds en ev, s4)
    else none

/-- One or more comma-separated JSON array elements followed by the closing
bracket, fuelled by the element count, with the value grammar supplied as a
function. -/
def parseElemsWith (pv : List Char → Option (JsonVal × List Char)) :
    ℕ → List Char → Option (List JsonVal × List Char)
  | 0, _ => none
  | fuel + 1, s =>
    match pv (skipWs s) with
    | none => none
    | some (v, rest) =>
      match skipWs rest with
      | [] => none
      | c :: rest2 =>
        if c = ',' then
          match parseElemsWith pv fuel rest2 with
          | some (vs, rest3) => some (v :: vs, rest3)
          | none => none
        else if c = ']' then some ([v], rest2)
        else none

/-- One or more comma-separated JSON object members followed by the closing
brace, accumulating into a Python dict where a repeated key overwrites the
earlier binding. -/
def parseFieldsWith (pv : List Char → Option (JsonVal × List Char)) :
    ℕ → List (String × JsonVal) → List Char → Option (List (String × JsonVal) × List Char)
  | 0, _, _ => none
  | fuel + 1, acc, s =>
    match skipWs s with
    | [] => none
    | c :: rest =>
      if c = '\"' then
        match parseStringBody (rest.length + 1) rest with
        | none => none
        | some (keyChars, rest2) =>
          match skipWs rest2 with
          | [] => none
          | c2 :: rest3 =>
            if c2 = ':' then
              match pv (skipWs rest3) with
              | none => none
              | some (v, rest4) =>
                let acc2 := dictInsert acc (String.mk keyChars) v
                match skipWs rest4 with
                | [] => none
                | c3 :: rest5 =>
                  if c3 = ',' then parseFieldsWith pv fuel acc2 rest5
                  else if c3 = rbraceChar then some (acc2, rest5)
                  else none
            else none
      else none

/-- A JSON value, fuelled by the permitted nesting depth.  The input is
expected to start at the value (whitespace already skipped). -/
def parseValue : ℕ → List Char → Option (JsonVal × List Char)
  | 0, _ => none
  | fuel + 1, s =>
    match s with
    | [] => none
    | c :: rest =>
      if c = '\"' then
        match parseStringBody (rest.length + 1) rest with
        | some (cs, r) => some (.str (String.mk cs), r)
        | none => none
      else if c = lbraceChar then
        match skipWs rest with
        | [] => none
        | c2 :: rest2 =>
          if c2 = rbraceChar then some (.obj [], rest2)
          else
            match parseFieldsWith (parseValue fuel) (rest.length + 1) [] (c2 :: rest2) with
            | some (fs, r) => some (.obj fs, r)
            | none => none
      else if c = '[' then
        match skipWs rest with
        | [] => none
        | c2 :: rest2 =>
          if c2 = ']' then some (.arr [], rest2)
          else
            match parseElemsWith (parseValue fuel) (rest.length + 1) (c2 :: rest2) with
            | some (vs, r) => some (.arr vs, r)
            | none => none
      else if c = 't' then
        match rest with
        | 'r' :: 'u' :: 'e' :: r => some (.bool true, r)
        | _ => none
      else if c = 'f' then
        match rest with
        | 'a' :: 'l' :: 's' :: 'e' :: r => some (.bool false, r)
        | _ => none
      else if c = 'n' then
        match rest with
        | 'u' :: 'l' :: 'l' :: r => some (.null, r)
        | _ => none
      else
        match parseNumber (c :: rest) with
        | some (q, r) => some (.num q, r)
        | none => none

/-- Model of json.loads on a character list: one JSON value surrounded by
optional whitespace, with nothing after it. -/
def jsonLoads (text : List Char) : Option JsonVal :=
  let t := skipWs text
  match parseValue (t.length + 1) t with
  | some (v, rest) => if skipWs rest = [] then some v else none
  | none => none

/-- Modelled from the spec: swap.utils.clean_transaction_raw, imported by
src/swap/providers/vapor/utils.py from the package-level utils module, is not
under src.  The spec describes the transaction-raw codec simply as a base64
string carrying a JSON envelope, so the cleaning step is modelled as the
identity normalization of that base64 string. -/
def clean_transaction_raw (transaction_raw : String) : String := transaction_raw

/-- The six transaction-raw type tags accepted by is_transaction_raw
(src/swap/providers/vapor/utils.py lines 118 to 122). -/
def vaporTypes : List String :=
  ["vapor_fund_unsigned", "vapor_fund_signed",
   "vapor_claim_unsigned", "vapor_claim_signed",
   "vapor_refund_unsigned", "vapor_refund_signed"]

/-- Python membership of an arbitrary JSON value in a list of strings: only a
string equal to a listed tag is a member. -/
def jsonMemberOf (v : JsonVal) (tags : List String) : Bool :=
  match v with
  | .str s => tags.contains s
  | _ => false

/-- The body of the try block of is_transaction_raw
(src/swap/providers/vapor/utils.py lines 114 to 122): clean, base64-decode,
utf-8 decode, json-parse, then test the type tag; each stage can raise. -/
def is_transaction_raw_core (transaction_raw : String) : Except PyExc Bool :=
  match b64decodeString (clean_transaction_raw transaction_raw) with
  | none => .error (.valueError "Invalid base64-encoded string")
  | some bytes =>
    match utf8DecodeBytes bytes with
    | none => .error (.valueError "utf-8 codec cannot decode")
    | some text =>
      match jsonLoads text with
      | none => .error (.valueError "Expecting value")
      | some loaded =>
        match getItem loaded "type" with
        | .error e => .error e
        | .ok v => .ok (jsonMemberOf v vaporTypes)

/-- Embedding of is_transaction_raw (src/swap/providers/vapor/utils.py lines
98 to 124) on string inputs: the try body with the bare except returning
False. -/
def is_transaction_raw (transaction_raw : String) : Bool :=
  match is_transaction_raw_core transaction_raw with
  | .ok b => b
  | .error _ => false

/-- The decoded JSON envelope of a transaction raw: clean, base64-decode,
utf-8 decode and json-parse, as one partial function. -/
def envelopeJson (transaction_raw : String) : Option JsonVal :=
  match b64decodeString (clean_transaction_raw transaction_raw) with
  | none => none
  | some bytes =>
    match utf8DecodeBytes bytes with
    | none => none
    | some text => jsonLoads text

/-- The specification predicate of a valid transaction raw: the string, after
cleaning, is valid base64 whose decoded bytes parse as a JSON object carrying
a type key bound to one of the six vapor tags. -/
def validEnvelopeTag (transaction_raw : String) : Bool :=
  match envelopeJson transaction_raw with
  | some (.obj fields) =>
    match lookupField fields "type" with
    | some (.str t) => vaporTypes.contains t
    | _ => false
  | _ => false

/-- The per-network endpoints of the Vapor configuration.  Modelled from the
spec: swap/providers/config.py is not under src; the spec's network utility
layer issues HTTP calls to per-network remote services, the valid networks
being mainnet, solonet and testnet, so the configuration maps exactly those
three network names to abstract endpoint base urls. -/
structure VaporNetworkConfig where
  vaporCore : String
  blockcenter : String

/-- Configuration lookup config[network], defined for the three valid Vapor
network names only (a Python KeyError otherwise). -/
def configNetwork (network : String) : Option VaporNetworkConfig :=
  if network = "mainnet" then some ⟨"mainnet-vapor-core", "mainnet-blockcenter"⟩
  else if network = "solonet" then some ⟨"solonet-vapor-core", "solonet-blockcenter"⟩
  else if network = "testnet" then some ⟨"testnet-vapor-core", "testnet-blockcenter"⟩
  else none

/-- An HTTP POST request issued by the network utility layer: the url, the
json payload sent as the body, and the query parameters. -/
structure HttpRequest where
  url : String
  payload : List (String × JsonVal)
  params : List (String × JsonVal)

/-- An HTTP response: the status code and the body as parsed by
response.json(), none when the body is not JSON. -/
structure HttpResponse where
  statusCode : ℕ
  body : Option JsonVal

/-- The dict returned by decode_transaction_raw, in the field order of the
source. -/
structure DecodedTransactionRaw where
  fee : JsonVal
  address : JsonVal
  typeTag : JsonVal
  tx : JsonVal
  unsigned_datas : JsonVal
  signatures : JsonVal
  network : JsonVal

/-- Python equality of a JSON value with the integer 200, used by the
submit-payment response check. -/
def jsonEq200 (v : JsonVal) : Bool :=
  match v with
  | .num q => decide (q = 200)
  | _ => false

/-- The dict returned by submit_transaction_raw, in the field order of the
source. -/
structure SubmittedTransactionRaw where
  fee : JsonVal
  typeTag : JsonVal
  transaction_id : JsonVal
  network : JsonVal
  date : String

/-- Processing of the decode-raw-transaction HTTP response
(src/swap/providers/vapor/utils.py lines 157 to 169): a 400 status raises
APIError from the response message and code, otherwise the result dict copies
the envelope fields around the decoded tx taken from the response data
field. -/
def decodeResponse (loaded netv : JsonVal) (req : HttpRequest)
    (resp : HttpResponse) :
    Except PyExc DecodedTransactionRaw × List HttpRequest :=
  match resp.body with
  | none => (.error (.valueError "response body is not json"), [req])
  | some rjson =>
    if resp.statusCode = 400 then
      match getItem rjson "msg" with
      | .error e => (.error e, [req])
      | .ok m =>
        match getItem rjson "code" with
        | .error e => (.error e, [req])
        | .ok c => (.error (.apiError m c), [req])
    else
      match getItem loaded "fee" with
      | .error e => (.error e, [req])
      | .ok feev =>
        match getItem loaded "address" with
        | .error e => (.error e, [req])
        | .ok addrv =>
          match getItem loaded "type" with
          | .error e => (.error e, [req])
          | .ok typev =>
            match getItem rjson "data" with
            | .error e => (.error e, [req])
            | .ok datav =>
              match getItem loaded "unsigned_datas" with
              | .error e => (.error e, [req])
              | .ok udv =>
                match getItem loaded "signatures" with
                | .error e => (.error e, [req])
                | .ok sigv =>
                  (.ok ⟨feev, addrv, typev, datav, udv, sigv, netv⟩, [req])

/-- Embedding of decode_transaction_raw (src/swap/providers/vapor/utils.py
lines 127 to 169).  The remote service is the function respond; the second
component of the result is the list of HTTP requests actually issued.  The
transaction raw is validated first; the envelope is then re-decoded, the
endpoint is taken from the configuration at the envelope network, the raw
transaction is posted to the decode endpoint, and the response is handled by
decodeResponse. -/
def decode_transaction_raw (respond : HttpRequest → HttpResponse)
    (transaction_raw : String) :
    Except PyExc DecodedTransactionRaw × List HttpRequest :=
  if is_transaction_raw transaction_raw = false then
    (.error (.transactionRawError "Invalid Vapor transaction raw."), [])
  else
    match envelopeJson transaction_raw with
    | none => (.error (.valueError "Expecting value"), [])
    | some loaded =>
      match getItem loaded "network" with
      | .error e => (.error e, [])
      | .ok netv =>
        match (match netv with | .str n => configNetwork n | _ => none) with
        | none => (.error (.keyError "network configuration"), [])
        | some conf =>
          match getItem loaded "raw" with
          | .error e => (.error e, [])
          | .ok rawv =>
            decodeResponse loaded netv
              ⟨conf.vaporCore ++ "/decode-raw-transaction", [("raw_transaction", rawv)], []⟩
              (respond ⟨conf.vaporCore ++ "/decode-raw-transaction", [("raw_transaction", rawv)], []⟩)

/-- Processing of the submit-payment HTTP response
(src/swap/providers/vapor/utils.py lines 203 to 213): a response code other
than 200 raises APIError from the response message and code, otherwise the
result dict copies the envelope fields around the submitted transaction hash
taken from the response data, stamped with the current utc time. -/
def submitResponse (loaded netv : JsonVal) (now : String) (req : HttpRequest)
    (resp : HttpResponse) :
    Except PyExc SubmittedTransactionRaw × List HttpRequest :=
  match resp.body with
  | none => (.error (.valueError "response body is not json"), [req])
  | some rjson =>
    match getItem rjson "code" with
    | .error e => (.error e, [req])
    | .ok codev =>
      if jsonEq200 codev then
        match getItem loaded "fee" with
        | .error e => (.error e, [req])
        | .ok feev =>
          match getItem loaded "type" with
          | .error e => (.error e, [req])
          | .ok typev =>
            match getItem rjson "data" with
            | .error e => (.error e, [req])
            | .ok datav =>
              match getItem datav "tx_hash" with
              | .error e => (.error e, [req])
              | .ok txh =>
                (.ok ⟨feev, typev, txh, netv, now⟩, [req])
      else
        match getItem rjson "msg" with
        | .error e => (.error e, [req])
        | .ok m => (.error (.apiError m codev), [req])

/-- Embedding of submit_transaction_raw (src/swap/providers/vapor/utils.py
lines 172 to 213).  The remote service is the function respond, the current
utc timestamp string is the parameter now.  The transaction raw is validated
first; the envelope is re-decoded, the raw transaction and signatures are
posted to the blockcenter endpoint of the envelope network with the envelope
address as query parameter, a response code other than 200 raises APIError,
and the result dict copies the envelope fields around the submitted
transaction id. -/
def submit_transaction_raw (respond : HttpRequest → HttpResponse)
    (now : String) (transaction_raw : String) :
    Except PyExc SubmittedTransactionRaw × List HttpRequest :=
  if is_transaction_raw transaction_raw = false then
    (.error (.transactionRawError "Invalid Vapor transaction raw."), [])
  else
    match envelopeJson transaction_raw with
    | none => (.error (.valueError "Expecting value"), [])
    | some loaded =>
      match getItem loaded "network" with
      | .error e => (.error e, [])
      | .ok netv =>
        match (match netv with | .str n => configNetwork n | _ => none) with
        | none => (.error (.keyError "network configuration"), [])
        | some conf =>
          match getItem loaded "raw" with
          | .error e => (.error e, [])
          | .ok rawv =>
            match getItem loaded "signatures" with
            | .error e => (.error e, [])
            | .ok sigv =>
              match getItem loaded "address" with
              | .error e => (.error e, [])
              | .ok addrv =>
                submitResponse loaded netv now
                  ⟨conf.blockcenter ++ "/merchant/submit-payment",
                   [("raw_transaction", rawv), ("signatures", sigv)],
                   [("address", addrv)]⟩
                  (respond
                    ⟨conf.blockcenter ++ "/merchant/submit-payment",
                     [("raw_transaction", rawv), ("signatures", sigv)],
                     [("address", addrv)]⟩)

/-- Outcome of a click CLI command invocation: either the echoed output, or
an error message printed to stderr followed by a process exit. -/
inductive CliOutcome where
  | output (text : String)
  | errorExit (text : String)

/-- The arguments the refund CLI passes to
RefundTransaction(network).build_transaction. -/
structure BuildArgs where
  network : String
  address : String
  transaction_id : String
  amount : PyNum
  max_amount : Bool
  asset : String

/-- Modelled from the spec: amount_unit_converter, imported by the refund CLI
from the vapor utils module, is not under src (the utils module under src
defines the conversion table as amount_converter).  The spec describes the
utility functions as constant-table unit conversions with the fixed factors
BTM = 1, mBTM = 1000, NEU = 100000000, so the converter is modelled by that
constant table over exact amounts; the refund CLI claims assert the dataflow
through this converter, not float rounding. -/
def amount_unit_converter (amount : ℚ) (unit_from : String) : Except PyExc PyNum :=
  if unit_from ∈ validSymbols then
    if unit_from = "BTM2mBTM" then .ok (.pfloat ((amount * 1000) / 1))
    else if unit_from = "BTM2NEU" then .ok (.pint (truncQ ((amount * 100000000) / 1)))
    else if unit_from = "mBTM2BTM" then .ok (.pfloat ((amount * 1) / 1000))
    else if unit_from = "mBTM2NEU" then .ok (.pint (truncQ ((amount * 100000000) / 1000)))
    else if unit_from = "NEU2BTM" then .ok (.pfloat ((amount * 1) / 100000000))
    else .ok (.pint (truncQ ((amount * 1000) / 100000000)))
  else
    .error (.unitError ("Invalid \x27" ++ unit_from ++ "\x27 unit from")
      "choose only \x27BTM2mBTM\x27, \x27BTM2NEU\x27, \x27mBTM2BTM\x27, \x27mBTM2NEU\x27, \x27NEU2BTM\x27 or \x27NEU2mBTM\x27 symbols.")

/-- The amount expression of the refund CLI
(src/swap/cli/providers/vapor/refund.py line 34): int(amount) when the unit
flag is NEU, otherwise the unit converter applied to the pair unit2NEU. -/
def refund_amount (amount : ℚ) (unit : String) : Except PyExc PyNum :=
  if unit = "NEU" then .ok (.pint (truncQ amount))
  else amount_unit_converter amount (unit ++ "2NEU")

/-- Embedding of the refund CLI command
(src/swap/cli/providers/vapor/refund.py lines 26 to 44).  The external
transaction builder RefundTransaction(network).build_transaction followed by
transaction_raw() is the function parameter build; the body runs inside
try/except, so any exception raised while converting the amount or building
is printed to stderr as Error: followed by the exception text, and the
process exits. -/
def refund (build : BuildArgs → Except PyExc String)
    (address transaction_id : String) (amount : ℚ) (max_amount : Bool)
    (unit asset network : String) : CliOutcome :=
  match refund_amount amount unit with
  | .error e => .errorExit ("Error: " ++ e.text)
  | .ok amt =>
    match build ⟨network, address, transaction_id, amt, max_amount, asset⟩ with
    | .ok raw => .output raw
    | .error e => .errorExit ("Error: " ++ e.text)

theorem truncQ_intCast (x : ℤ) : truncQ (x : ℚ) = x := by
  unfold truncQ
  rw [Rat.num_intCast, Rat.den_intCast]
  simp

theorem getItem_no_tre (v : JsonVal) (key m : String) :
    getItem v key ≠ .error (.transactionRawError m) := by
  unfold getItem
  cases v <;> simp
  case obj fields => cases lookupField fields key <;> simp

theorem blenAux_zero (fuel : ℕ) : blenAux fuel 0 = 0 := by
  cases fuel <;> simp [blenAux]

theorem blenAux_bounds :
    ∀ fuel n, 0 < n → n < 2 ^ fuel →
      2 ^ (blenAux fuel n - 1) ≤ n ∧ n < 2 ^ blenAux fuel n := by
  intro fuel
  induction fuel with
  | zero =>
    intro n h0 h1
    norm_num at h1
    omega
  | succ f ih =>
    intro n h0 h1
    rw [blenAux, if_neg (by omega)]
    by_cases h2 : n = 1
    · subst h2
      norm_num [blenAux_zero]
    · have hhalf0 : 0 < n / 2 := by omega
      have hhalf1 : n / 2 < 2 ^ f := by
        have hp : (2:ℕ) ^ (f + 1) = 2 * 2 ^ f := by ring
        omega
      obtain ⟨ih1, ih2⟩ := ih (n / 2) hhalf0 hhalf1
      have hb1 : 1 ≤ blenAux f (n / 2) := by
        by_contra hb
        push_neg at hb
        have hb0 : blenAux f (n / 2) = 0 := by omega
        rw [hb0] at ih2
        norm_num at ih2
        omega
      constructor
      · have hs : (2:ℕ) ^ (blenAux f (n / 2) + 1 - 1) = 2 * 2 ^ (blenAux f (n / 2) - 1) := by
          rw [← pow_succ']
          congr 1
          omega
        rw [hs]
        omega
      · have hs : (2:ℕ) ^ (blenAux f (n / 2) + 1) = 2 * 2 ^ blenAux f (n / 2) := by
          rw [← pow_succ']
        rw [hs]
        omega

theorem blen_bounds (n : ℕ) (h0 : 0 < n) (h : n < 2 ^ 1200) :
    2 ^ (blen n - 1) ≤ n ∧ n < 2 ^ blen n :=
  blenAux_bounds 1200 n h0 h

theorem rhe_one (x : ℕ) : rhe x 1 = x := by
  simp [rhe, Nat.mod_one]

theorem divInt_one_eq (j : ℤ) : Rat.divInt j 1 = (j : ℚ) := by
  rw [Rat.divInt_eq_div]
  norm_num

theorem ratMulNat_intCast (j : ℤ) (k : ℕ) :
    ratMulNat ((j : ℤ) : ℚ) k = ((j * k : ℤ) : ℚ) := by
  unfold ratMulNat
  rw [Rat.num_intCast, Rat.den_intCast]
  rw [show (((1:ℕ)) : ℤ) = 1 from rfl]
  rw [divInt_one_eq]

theorem ratDivNat_intCast (j : ℤ) (k : ℕ) :
    ratDivNat ((j : ℤ) : ℚ) k = ((j : ℤ) : ℚ) / ((k : ℕ) : ℚ) := by
  unfold ratDivNat
  rw [Rat.num_intCast, Rat.den_intCast]
  rw [show (((1:ℕ)) : ℤ) * (k : ℤ) = (k : ℤ) by ring]
  rw [Rat.divInt_eq_div]
  push_cast
  ring

theorem roundDouble_intCast (j : ℤ) (hj : j.natAbs < 2 ^ 53) :
    roundDouble ((j : ℤ) : ℚ) = ((j : ℤ) : ℚ) := by
  by_cases h0 : j = 0
  · subst h0
    unfold roundDouble
    rw [if_pos (show ((((0:ℤ)) : ℚ)).num = 0 by rw [Rat.num_intCast])]
    norm_num
  · have hnum : ((((j:ℤ)) : ℚ)).num = j := Rat.num_intCast j
    have hden : ((((j:ℤ)) : ℚ)).den = 1 := Rat.den_intCast j
    have ha0 : 0 < j.natAbs := Int.natAbs_pos.mpr h0
    obtain ⟨hb1, hb2⟩ := blen_bounds j.natAbs ha0 (lt_trans hj (by norm_num))
    have hble : blen j.natAbs ≤ 53 := by
      by_contra hc
      push_neg at hc
      have hpw : (2:ℕ) ^ 53 ≤ 2 ^ (blen j.natAbs - 1) :=
        Nat.pow_le_pow_right (by norm_num) (by omega)
      omega
    have hbpos : 1 ≤ blen j.natAbs := by
      by_contra hc
      push_neg at hc
      have hz : blen j.natAbs = 0 := by omega
      rw [hz] at hb2
      norm_num at hb2
      omega
    have hblen1 : blen 1 = 1 := rfl
    unfold roundDouble
    rw [if_neg (by rw [hnum]; exact h0)]
    rw [hnum, hden]
    have hde : dblExp j.natAbs 1 = (blen j.natAbs : ℤ) - 54 := by
      unfold dblExp
      rw [hblen1, if_neg (by push_cast; omega)]
      push_cast
      ring
    have hsc1 : roundScaled j.natAbs 1 ((blen j.natAbs : ℤ) - 54) =
        j.natAbs * 2 ^ (54 - blen j.natAbs) := by
      unfold roundScaled
      rw [if_neg (by omega)]
      rw [show (-(((blen j.natAbs : ℕ) : ℤ) - 54)).toNat = 54 - blen j.natAbs by omega]
      rw [rhe_one]
    have hcarry : 2 ^ 53 ≤ j.natAbs * 2 ^ (54 - blen j.natAbs) := by
      calc (2:ℕ) ^ 53 = 2 ^ (blen j.natAbs - 1) * 2 ^ (54 - blen j.natAbs) := by
            rw [← pow_add]
            congr 1
            omega
        _ ≤ j.natAbs * 2 ^ (54 - blen j.natAbs) := Nat.mul_le_mul_right _ hb1
    have hde2 : dblExp2 j.natAbs 1 = (blen j.natAbs : ℤ) - 53 := by
      unfold dblExp2
      rw [hde, hsc1, if_pos hcarry]
      ring
    rw [hde2]
    have hsc2 : roundScaled j.natAbs 1 ((blen j.natAbs : ℤ) - 53) =
        j.natAbs * 2 ^ (53 - blen j.natAbs) := by
      unfold roundScaled
      rcases eq_or_lt_of_le hble with h53 | h53
    -- at exponent zero the scaling power is one on both readings
      · rw [if_pos (by omega)]
        rw [show (((blen j.natAbs : ℕ) : ℤ) - 53).toNat = 0 by omega]
        rw [show 53 - blen j.natAbs = 0 by omega]
        norm_num [rhe_one]
      · rw [if_neg (by omega)]
        rw [show (-(((blen j.natAbs : ℕ) : ℤ) - 53)).toNat = 53 - blen j.natAbs by omega]
        rw [rhe_one]
    rw [hsc2]
    unfold dblVal
    have hsgn : (if decide (j < 0) = true then -((j.natAbs * 2 ^ (53 - blen j.natAbs) : ℕ) : ℤ)
        else ((j.natAbs * 2 ^ (53 - blen j.natAbs) : ℕ) : ℤ)) =
        j * 2 ^ (53 - blen j.natAbs) := by
      by_cases hn : j < 0
      · rw [if_pos (by simp [hn])]
        push_cast
        rw [abs_of_neg hn]
        ring
      · rw [if_neg (by simp [hn])]
        push_cast
        rw [abs_of_nonneg (by omega : (0:ℤ) ≤ j)]
    rcases eq_or_lt_of_le hble with h53 | h53
    · rw [if_pos (by omega : (0:ℤ) ≤ (blen j.natAbs : ℤ) - 53)]
      rw [hsgn]
      rw [show (((blen j.natAbs : ℕ) : ℤ) - 53).toNat = 0 by omega]
      rw [show 53 - blen j.natAbs = 0 by omega]
      norm_num [divInt_one_eq]
    · rw [if_neg (by omega : ¬ (0:ℤ) ≤ (blen j.natAbs : ℤ) - 53)]
      rw [hsgn]
      rw [show (-(((blen j.natAbs : ℕ) : ℤ) - 53)).toNat = 53 - blen j.natAbs by omega]
      rw [Rat.divInt_eq_div]
      push_cast
      rw [mul_div_assoc, div_self (by positivity : ((2:ℚ) ^ (53 - blen j.natAbs)) ≠ 0), mul_one]

/-- Claim C5, as stated, is false on the code: for the integer NEU amount 3,
NEU2BTM gives the double nearest to 3e-8, converting back multiplies and
rounds to a double just below 3, and the int() cast truncates it to 2, so
the round-trip loses the amount. -/
theorem c5_counterexample :
    (match amount_converter (.pint 3) "NEU2BTM" with
     | .ok r => amount_converter r "BTM2NEU"
     | .error e => .error e) = .ok (.pint 2) ∧
    (2 : ℤ) ≠ 3 := by
  constructor
  · set_option maxRecDepth 100000 in rfl
  · decide

/-- Claim C5 (amended): the scaling factors are mutually inverse on whole-BTM
amounts: for every integer NEU amount that is a whole multiple of 100000000
with the multiplier of magnitude at most 9000000, converting with NEU2BTM
and converting the result back with BTM2NEU yields the amount again (both
directions are then exact in binary64). -/
theorem c5_theorem (k : ℤ) (hk : k.natAbs ≤ 9000000) :
    (amount_converter (.pint (k * 100000000)) "NEU2BTM").bind
      (fun r => amount_converter r "BTM2NEU") = .ok (.pint (k * 100000000)) := by
  have habs1 : (k * 100000000).natAbs < 2 ^ 53 := by
    have : (k * 100000000).natAbs = k.natAbs * 100000000 := by
      rw [Int.natAbs_mul]
      norm_num
    rw [this]
    have : k.natAbs * 100000000 ≤ 900000000000000 := by omega
    omega
  have habs0 : k.natAbs < 2 ^ 53 := by omega
  rw [show (amount_converter (.pint (k * 100000000)) "NEU2BTM") =
      .ok (.pfloat (roundDouble (ratDivNat ((k * 100000000 * (1:ℕ) : ℤ) : ℚ) 100000000)))
    from rfl]
  rw [show ∀ a : PyNum, (Except.ok a : Except PyExc PyNum).bind
      (fun r => amount_converter r "BTM2NEU") = amount_converter a "BTM2NEU"
    from fun a => rfl]
  have harg : ratDivNat ((k * 100000000 * (1:ℕ) : ℤ) : ℚ) 100000000 = ((k : ℤ) : ℚ) := by
    rw [ratDivNat_intCast]
    push_cast
    field_simp
  rw [harg, roundDouble_intCast k habs0]
  rw [show amount_converter (.pfloat ((k : ℤ) : ℚ)) "BTM2NEU" =
      .ok (.pint (truncQ (roundDouble (ratDivNat
        (roundDouble (ratMulNat ((k : ℤ) : ℚ) 100000000)) 1)))) from rfl]
  rw [ratMulNat_intCast]
  rw [show (((100000000:ℕ)) : ℤ) = 100000000 from rfl]
  rw [roundDouble_intCast _ habs1, ratDivNat_intCast]
  rw [Nat.cast_one, div_one]
  rw [roundDouble_intCast _ habs1, truncQ_intCast]

/-- Witness for the amended claim C5 at the concrete whole-BTM amount of one
BTM, 100000000 NEU, which round-trips exactly. -/
theorem c5_witness :
    ((1 : ℤ).natAbs ≤ 9000000) ∧
    (amount_converter (.pint ((1 : ℤ) * 100000000)) "NEU2BTM").bind
      (fun r => amount_converter r "BTM2NEU") = .ok (.pint ((1 : ℤ) * 100000000)) :=
  ⟨by decide, c5_theorem 1 (by decide)⟩

/-- Claim C2: is_transaction_raw returns true exactly when the string, after
cleaning, is valid base64 whose decoded bytes parse as a JSON object with a
type key bound to one of the six vapor transaction tags. -/
theorem c2_theorem (s : String) : is_transaction_raw s = validEnvelopeTag s := by
  unfold is_transaction_raw is_transaction_raw_core validEnvelopeTag envelopeJson
  cases hb : b64decodeString (clean_transaction_raw s) with
  | none => rfl
  | some bytes =>
    simp only []
    cases hu : utf8DecodeBytes bytes with
    | none => rfl
    | some text =>
      simp only []
      cases hj : jsonLoads text with
      | none => rfl
      | some loaded =>
        simp only []
        cases loaded with
        | obj fields =>
          simp only [getItem]
          cases hl : lookupField fields "type" with
          | none => rfl
          | some v => cases v <;> rfl
        | null => rfl
        | bool b => rfl
        | num q => rfl
        | str t => rfl
        | arr xs => rfl

/-- Claim C8: is_transaction_raw is total on strings, returning a boolean,
and whenever the try body raises (any decoding or parsing failure) the bare
except turns the outcome into false. -/
theorem c8_theorem (s : String) :
    (∃ b : Bool, is_transaction_raw s = b) ∧
    (∀ e : PyExc, is_transaction_raw_core s = .error e → is_transaction_raw s = false) := by
  refine ⟨⟨is_transaction_raw s, rfl⟩, ?_⟩
  intro e he
  unfold is_transaction_raw
  rw [he]

/-- Witness for claim C8 at a concrete non-base64 input whose try body
raises, so the function returns false. -/
theorem c8_witness :
    is_transaction_raw_core "***" = .error (.valueError "Expecting value") ∧
    is_transaction_raw "***" = false :=
  ⟨rfl, ( c8_theorem "***").2 (.valueError "Expecting value") rfl⟩

theorem decodeResponse_no_tre (loaded netv : JsonVal) (req : HttpRequest)
    (resp : HttpResponse) (m : String) :
    (decodeResponse loaded netv req resp).1 ≠ .error (.transactionRawError m) := by
  unfold decodeResponse
  repeat' split
  all_goals intro hc
  all_goals simp_all [getItem_no_tre]

theorem submitResponse_no_tre (loaded netv : JsonVal) (now : String)
    (req : HttpRequest) (resp : HttpResponse) (m : String) :
    (submitResponse loaded netv now req resp).1 ≠ .error (.transactionRawError m) := by
  unfold submitResponse
  repeat' split
  all_goals intro hc
  all_goals simp_all [getItem_no_tre]

theorem decode_no_tre (respond : HttpRequest → HttpResponse) (s : String)
    (h : is_transaction_raw s = true) (m : String) :
    (decode_transaction_raw respond s).1 ≠ .error (.transactionRawError m) := by
  unfold decode_transaction_raw
  rw [if_neg (by simp [h])]
  repeat' split
  all_goals intro hc
  all_goals simp_all [getItem_no_tre, decodeResponse_no_tre]

theorem submit_no_tre (respond : HttpRequest → HttpResponse) (now s : String)
    (h : is_transaction_raw s = true) (m : String) :
    (submit_transaction_raw respond now s).1 ≠ .error (.transactionRawError m) := by
  unfold submit_transaction_raw
  rw [if_neg (by simp [h])]
  repeat' split
  all_goals intro hc
  all_goals simp_all [getItem_no_tre, submitResponse_no_tre]

/-- Claim C3: decode_transaction_raw and submit_transaction_raw raise
TransactionRawError exactly when is_transaction_raw is false on the input,
and on an invalid input the validation fails before any HTTP request is
issued, so the request trace is empty. -/
theorem c3_theorem (respond : HttpRequest → HttpResponse) (now s : String) :
    ((∃ m, (decode_transaction_raw respond s).1 = .error (.transactionRawError m)) ↔
      is_transaction_raw s = false) ∧
    ((∃ m, (submit_transaction_raw respond now s).1 = .error (.transactionRawError m)) ↔
      is_transaction_raw s = false) ∧
    (is_transaction_raw s = false →
      decode_transaction_raw respond s =
        (.error (.transactionRawError "Invalid Vapor transaction raw."), []) ∧
      submit_transaction_raw respond now s =
        (.error (.transactionRawError "Invalid Vapor transaction raw."), [])) := by
  cases h : is_transaction_raw s with
  | false =>
    have hd : decode_transaction_raw respond s =
        (.error (.transactionRawError "Invalid Vapor transaction raw."), []) := by
      unfold decode_transaction_raw
      rw [if_pos h]
    have hs : submit_transaction_raw respond now s =
        (.error (.transactionRawError "Invalid Vapor transaction raw."), []) := by
      unfold submit_transaction_raw
      rw [if_pos h]
    refine ⟨?_, ?_, fun _ => ⟨hd, hs⟩⟩
    · constructor
      · intro _; rfl
      · intro _; exact ⟨"Invalid Vapor transaction raw.", by rw [hd]⟩
    · constructor
      · intro _; rfl
      · intro _; exact ⟨"Invalid Vapor transaction raw.", by rw [hs]⟩
  | true =>
    refine ⟨?_, ?_, ?_⟩
    · apply iff_of_false
      · rintro ⟨m, hm⟩
        exact decode_no_tre respond s h m hm
      · simp [h]
    · apply iff_of_false
      · rintro ⟨m, hm⟩
        exact submit_no_tre respond now s h m hm
      · simp [h]
    · intro hf
      exact Bool.noConfusion hf

/-- Witness for claim C3 at the concrete invalid input x: both functions
raise TransactionRawError and issue no HTTP request. -/
theorem c3_witness :
    is_transaction_raw "x" = false ∧
    decode_transaction_raw (fun _ => ⟨200, none⟩) "x" =
      (.error (.transactionRawError "Invalid Vapor transaction raw."), []) ∧
    submit_transaction_raw (fun _ => ⟨200, none⟩) "" "x" =
      (.error (.transactionRawError "Invalid Vapor transaction raw."), []) :=
  ⟨by decide,
   ((c3_theorem (fun _ => ⟨200, none⟩) "" "x").2.2 (by decide)).1,
   ((c3_theorem (fun _ => ⟨200, none⟩) "" "x").2.2 (by decide)).2⟩

theorem decodeResponse_ok (loaded netv : JsonVal) (req : HttpRequest)
    (resp : HttpResponse) (d : DecodedTransactionRaw) (reqs : List HttpRequest)
    (hd : decodeResponse loaded netv req resp = (.ok d, reqs)) :
    reqs = [req] ∧
    getItem loaded "fee" = .ok d.fee ∧
    getItem loaded "address" = .ok d.address ∧
    getItem loaded "type" = .ok d.typeTag ∧
    getItem loaded "unsigned_datas" = .ok d.unsigned_datas ∧
    getItem loaded "signatures" = .ok d.signatures ∧
    d.network = netv ∧
    ∃ rbody, resp.body = some rbody ∧ getItem rbody "data" = .ok d.tx := by
  unfold decodeResponse at hd
  repeat' split at hd
  all_goals simp only [Prod.mk.injEq, Except.ok.injEq, reduceCtorEq, false_and] at hd
  obtain ⟨hd1, hd2⟩ := hd
  subst hd1
  subst hd2
  exact ⟨rfl, by assumption, by assumption, by assumption, by assumption, by assumption,
    rfl, ⟨_, by assumption, by assumption⟩⟩

/-- Claim C4: whenever decode_transaction_raw returns a dict, the fields fee,
address, type, unsigned_datas, signatures and network are carried unchanged
from the decoded JSON envelope, exactly one HTTP request was issued, and only
the tx field comes from the data field of the remote decode response. -/
theorem c4_theorem (respond : HttpRequest → HttpResponse) (s : String)
    (d : DecodedTransactionRaw) (reqs : List HttpRequest)
    (hd : decode_transaction_raw respond s = (.ok d, reqs)) :
    ∃ loaded req,
      envelopeJson s = some loaded ∧
      reqs = [req] ∧
      getItem loaded "fee" = .ok d.fee ∧
      getItem loaded "address" = .ok d.address ∧
      getItem loaded "type" = .ok d.typeTag ∧
      getItem loaded "unsigned_datas" = .ok d.unsigned_datas ∧
      getItem loaded "signatures" = .ok d.signatures ∧
      getItem loaded "network" = .ok d.network ∧
      ∃ rbody, (respond req).body = some rbody ∧ getItem rbody "data" = .ok d.tx := by
  unfold decode_transaction_raw at hd
  by_cases h : is_transaction_raw s = false
  · rw [if_pos h] at hd
    rw [Prod.mk.injEq] at hd
    exact absurd hd.1 (by simp)
  · rw [if_neg h] at hd
    repeat' split at hd
    all_goals try (rw [Prod.mk.injEq] at hd; exact absurd hd.1 (by simp))
    obtain ⟨hr, hfee, haddr, hty, hud, hsig, hnetd, rbody, hbody, hdata⟩ :=
      decodeResponse_ok _ _ _ _ _ _ hd
    subst hnetd
    exact ⟨_, _, by assumption, hr, hfee, haddr, hty, hud, hsig, by assumption,
      rbody, hbody, hdata⟩

/-- Witness for claim C4: a concrete valid transaction raw (the base64 of a
complete envelope on mainnet) decoded against a service returning status 200
with a data field; the returned dict carries every envelope field unchanged
and the tx field from the response. -/
theorem c4_witness :
    ∃ loaded req,
      envelopeJson "eyJmZWUiOjEwMDAwMDAwLCJhZGRyZXNzIjoiYWJjIiwidHlwZSI6InZhcG9yX2Z1bmRfc2lnbmVkIiwicmF3IjoiY2FmZSIsInVuc2lnbmVkX2RhdGFzIjpbXSwic2lnbmF0dXJlcyI6W10sIm5ldHdvcmsiOiJtYWlubmV0In0=" =
        some loaded ∧
      ([(⟨"mainnet-vapor-core/decode-raw-transaction",
          [("raw_transaction", JsonVal.str "cafe")], []⟩ : HttpRequest)] : List HttpRequest) =
        [req] ∧
      getItem loaded "fee" = .ok (.num ((10000000 : ℕ) : ℚ)) ∧
      getItem loaded "address" = .ok (.str "abc") ∧
      getItem loaded "type" = .ok (.str "vapor_fund_signed") ∧
      getItem loaded "unsigned_datas" = .ok (.arr []) ∧
      getItem loaded "signatures" = .ok (.arr []) ∧
      getItem loaded "network" = .ok (.str "mainnet") ∧
      ∃ rbody,
        ((fun (_ : HttpRequest) =>
          (⟨200, some (.obj [("data", .str "decoded")])⟩ : HttpResponse)) req).body =
          some rbody ∧
        getItem rbody "data" = .ok (.str "decoded") :=
  c4_theorem
    (fun _ => ⟨200, some (.obj [("data", .str "decoded")])⟩)
    "eyJmZWUiOjEwMDAwMDAwLCJhZGRyZXNzIjoiYWJjIiwidHlwZSI6InZhcG9yX2Z1bmRfc2lnbmVkIiwicmF3IjoiY2FmZSIsInVuc2lnbmVkX2RhdGFzIjpbXSwic2lnbmF0dXJlcyI6W10sIm5ldHdvcmsiOiJtYWlubmV0In0="
    ⟨.num ((10000000 : ℕ) : ℚ), .str "abc", .str "vapor_fund_signed", .str "decoded",
      .arr [], .arr [], .str "mainnet"⟩
    [⟨"mainnet-vapor-core/decode-raw-transaction", [("raw_transaction", .str "cafe")], []⟩]
    (by set_option maxRecDepth 10000 in rfl)

/-- Claim C6: the refund CLI maps its flags to build_transaction, converting
the amount flag into NEU first: the amount is truncated to int when the unit
flag is NEU, and otherwise converted from the given unit to NEU by the unit
converter of the utility layer before being passed to the builder, together
with the other flags, unchanged. -/
theorem c6_theorem (build : BuildArgs → Except PyExc String)
    (address transaction_id : String) (amount : ℚ) (max_amount : Bool)
    (unit asset network : String) (a : PyNum)
    (ha : refund_amount amount unit = .ok a) :
    refund build address transaction_id amount max_amount unit asset network =
      (match build ⟨network, address, transaction_id, a, max_amount, asset⟩ with
       | .ok raw => .output raw
       | .error e => .errorExit ("Error: " ++ e.text)) ∧
    (unit = "NEU" → a = .pint (truncQ amount)) ∧
    (unit ≠ "NEU" → amount_unit_converter amount (unit ++ "2NEU") = .ok a) := by
  refine ⟨?_, ?_, ?_⟩
  · unfold refund
    rw [ha]
  · intro hu
    subst hu
    unfold refund_amount at ha
    rw [if_pos rfl] at ha
    exact (Except.ok.injEq _ _).mp ha.symm |>.symm ▸ rfl
  · intro hu
    unfold refund_amount at ha
    rw [if_neg hu] at ha
    exact ha

/-- Witness for claim C6 at the concrete flags unit BTM and amount 1: the
builder receives the amount converted by the unit converter at BTM2NEU. -/
theorem c6_witness :
    refund_amount 1 "BTM" = .ok (.pint (truncQ ((1 : ℚ) * 100000000 / 1))) ∧
    refund (fun _ => .ok "raw") "addr" "tid" 1 true "BTM" "asset" "mainnet" =
      .output "raw" ∧
    amount_unit_converter 1 ("BTM" ++ "2NEU") =
      .ok (.pint (truncQ ((1 : ℚ) * 100000000 / 1))) :=
  ⟨rfl,
   (c6_theorem (fun _ => .ok "raw") "addr" "tid" 1 true "BTM" "asset" "mainnet"
     (.pint (truncQ ((1 : ℚ) * 100000000 / 1))) rfl).1,
   (c6_theorem (fun _ => .ok "raw") "addr" "tid" 1 true "BTM" "asset" "mainnet"
     (.pint (truncQ ((1 : ℚ) * 100000000 / 1))) rfl).2.2 (by decide)⟩

/-- Claim C7: any exception raised while converting the amount or building
the refund transaction is not propagated by the refund CLI command: the
command prints Error: followed by the exception text to stderr and exits. -/
theorem c7_theorem (build : BuildArgs → Except PyExc String)
    (address transaction_id : String) (amount : ℚ) (max_amount : Bool)
    (unit asset network : String) (e : PyExc) :
    (refund_amount amount unit = .error e →
      refund build address transaction_id amount max_amount unit asset network =
        .errorExit ("Error: " ++ e.text)) ∧
    (∀ a, refund_amount amount unit = .ok a →
      build ⟨network, address, transaction_id, a, max_amount, asset⟩ = .error e →
      refund build address transaction_id amount max_amount unit asset network =
        .errorExit ("Error: " ++ e.text)) := by
  constructor
  · intro ha
    unfold refund
    rw [ha]
  · intro a ha hb
    unfold refund
    rw [ha]
    simp only []
    rw [hb]

/-- Witness for claim C7 at a concrete failing builder: the CLI prints the
error message and exits instead of propagating the exception. -/
theorem c7_witness :
    refund_amount 0 "NEU" = .ok (.pint (truncQ (0 : ℚ))) ∧
    (fun (_ : BuildArgs) => (.error (.valueError "boom") : Except PyExc String))
      ⟨"mainnet", "addr", "tid", .pint (truncQ (0 : ℚ)), true, "asset"⟩ =
      .error (.valueError "boom") ∧
    refund (fun _ => .error (.valueError "boom")) "addr" "tid" 0 true "NEU" "asset"
      "mainnet" = .errorExit ("Error: " ++ "boom") :=
  ⟨rfl, rfl,
   (c7_theorem (fun _ => .error (.valueError "boom")) "addr" "tid" 0 true "NEU" "asset"
     "mainnet" (.valueError "boom")).2 (.pint (truncQ (0 : ℚ))) rfl rfl⟩

/-- Claim C10: for every address the external validator accepts whose length
is neither 42 nor 62, get_address_type returns none; for every address the
validator rejects it raises AddressError instead of returning. -/
theorem c10_theorem (v : String → Option String → Bool) (address : String) :
    (v address none = true → address.length ≠ 42 → address.length ≠ 62 →
      get_address_type v address = .ok none) ∧
    (v address none = false →
      get_address_type v address =
        .error (.addressError ("Invalid Vapor \x27" ++ address ++ "\x27 address."))) := by
  constructor
  · intro h1 h2 h3
    unfold get_address_type is_address
    rw [h1]
    simp [h2, h3]
  · intro h0
    unfold get_address_type is_address
    rw [h0]
    simp

/-- Witness for claim C10 at the concrete address abc of length 3: a
validator accepting it yields none, a validator rejecting it raises
AddressError. -/
theorem c10_witness :
    get_address_type (fun _ _ => true) "abc" = .ok none ∧
    get_address_type (fun _ _ => false) "abc" =
      .error (.addressError ("Invalid Vapor \x27" ++ "abc" ++ "\x27 address.")) :=
  ⟨(c10_theorem (fun _ _ => true) "abc").1 rfl (by decide) (by decide),
   (c10_theorem (fun _ _ => false) "abc").2 rfl⟩

end Swap

